import Mathlib

/-!
# Verification of the Volatility-Checking dashboard (src/app.py)

A shallow embedding of the Streamlit dashboard in `src/app.py`.  The app
fetches a daily adjusted-close price series for a ticker, computes a rolling
annualized volatility series with a 22-day window via the external
`gs_quant.timeseries.volatility` collaborator, classifies the current regime
against a user threshold, and renders metrics, a badge, a chart and a data
table inside a single try/except error boundary.

Dates are modelled as `Nat`, prices as `ℚ`, and volatility values produced by
the external analytics collaborator as `ℝ` (the annualization involves a
square root).  The Streamlit widgets, the `st.cache_data` memoization and the
yfinance download are modelled explicitly.
-/

namespace VolApp

/-- Daily price series: ordered (date, price) pairs. -/
abbrev PriceSeries := List (Nat × ℚ)

/-! ## Regime Classifier (src/app.py lines 49-54) -/

/-- The two discrete market states the dashboard distinguishes. -/
inductive RegimeState where
  | STABLE
  | HIGH_VOLATILITY
deriving DecidableEq, Repr

/-- `if current_vol > vol_threshold: HIGH else STABLE` (src/app.py 49-54). -/
def classify (latestVolatilityPct thresholdPct : ℚ) : RegimeState :=
  if latestVolatilityPct > thresholdPct then .HIGH_VOLATILITY else .STABLE

/-! ## Volatility Engine

Modelled from the spec: the `gs_quant.timeseries.volatility` routine called at
src/app.py line 37 is an external collaborator whose code is not part of this
repository.  Per the spec it computes, for each date index `i ≥ windowSize-1`,
the annualized standard deviation of the trailing `windowSize` daily simple
returns ending at `i`, scaled by `√252`, and returns the empty series unless
the window size is a positive integer ≤ the length of the input series. -/

/-- Arithmetic mean of a list of rationals (0 on the empty list). -/
def listMean (xs : List ℚ) : ℚ := xs.sum / (xs.length : ℚ)

/-- Sample variance of a list of rationals (0 when fewer than two points). -/
def sampleVar (xs : List ℚ) : ℚ :=
  (xs.map (fun x => (x - listMean xs) ^ 2)).sum / ((xs.length : ℚ) - 1)

/-- Daily simple returns of a price list: `p (i+1) / p i - 1`. -/
def simpleReturns (ps : List ℚ) : List ℚ :=
  List.zipWith (fun a b => b / a - 1) ps ps.tail

/-- Modelled from the spec: annualized standard deviation of a list of
returns, `√(252 · sampleVar)`, expressed as a fraction. -/
noncomputable def volValue (returnsWindow : List ℚ) : ℝ :=
  Real.sqrt ((252 : ℝ) * (sampleVar returnsWindow : ℝ))

/-- Modelled from the spec: the rolling annualized volatility series of the
external analytics collaborator.  Output point at date index `i`
(for `windowSize - 1 ≤ i < |prices|`) carries the date of `prices[i]` and the
annualized standard deviation of the trailing (up to) `windowSize` daily
simple returns ending at `i`; the result is empty unless `windowSize` is a
positive integer ≤ `|prices|`. -/
noncomputable def rollingVolatility (prices : PriceSeries) (windowSize : Nat) :
    List (Nat × ℝ) :=
  if windowSize = 0 ∨ prices.length < windowSize then []
  else
    (prices.drop (windowSize - 1)).enum.map fun kp =>
      (kp.2.1, volValue (((simpleReturns (prices.map Prod.snd)).take
        (kp.1 + (windowSize - 1))).drop (kp.1 + (windowSize - 1) - windowSize)))

/-! ## Data Fetcher (src/app.py lines 24-27)

`get_data` downloads a multi-column frame from yfinance and selects the
single column named "Adj Close".  A download failure or a missing column
raises, which the error boundary later catches. -/

/-- A downloaded frame: a shared date index and named value columns. -/
structure DataFrame where
  index : List Nat
  columns : List (String × List ℚ)
deriving DecidableEq

/-- The column name selected by `get_data` (src/app.py line 27). -/
def adjClose : String := "Adj Close"

/-- The error taxonomy of the spec; all kinds collapse to one message. -/
inductive PipelineError where
  | dataUnavailable
  | emptySeries
  | computationError
deriving DecidableEq, Repr

/-- `get_data(ticker, period)` body (src/app.py lines 25-27): download the
frame and return only its "Adj Close" column, paired with the date index; a
missing column raises. -/
def get_data (download : String → String → DataFrame) (ticker period : String) :
    Except PipelineError PriceSeries :=
  match ((download ticker period).columns.find? fun c => c.1 == adjClose) with
  | some c => .ok ((download ticker period).index.zip c.2)
  | none => .error .dataUnavailable

/-! ## The `st.cache_data` memoization (src/app.py line 24)

Modelled from the spec: `@st.cache_data` is framework-level memoization whose
code is not part of this repository.  Per the spec the result is cached by
the exact (ticker, period) pair for the process lifetime and a cache hit
performs no network access.  `networkCalls` counts provider round trips. -/

/-- Process-lifetime fetch state: the memoization cache and a count of
network requests actually issued. -/
structure FetchState where
  cache : List ((String × String) × PriceSeries)
  networkCalls : Nat
deriving DecidableEq

/-- Modelled from the spec: one call of the cached Data Fetcher.  On a cache
hit for the exact key (ticker, period) the stored series is returned and no
network request happens; on a miss the provider is called once and the
result is stored. -/
def cachedGetData (download : String → String → PriceSeries)
    (ticker period : String) (s : FetchState) : PriceSeries × FetchState :=
  match s.cache.find? (fun e => e.1 == (ticker, period)) with
  | some e => (e.2, s)
  | none =>
      (download ticker period,
       ⟨((ticker, period), download ticker period) :: s.cache, s.networkCalls + 1⟩)

/-! ## Presentation Layer (src/app.py lines 17-86) -/

/-- A single ASCII apostrophe, as interpolated around the ticker in the
failure message. -/
def singleQuote : String := String.singleton (Char.ofNat 39)

/-- The f-string of src/app.py line 86. -/
def errorMessage (ticker : String) : String :=
  "Error: Could not fetch data for ticker " ++ singleQuote ++ ticker ++
    singleQuote ++ ". Please check the symbol."

/-- One rendered element of the page body. -/
inductive Output where
  | metricPrice (value : ℚ)
  | metricVol (pct : ℚ)
  | badge (high : Bool)
  | chart (threshold : ℚ)
  | rawData (rows : PriceSeries)
  | errorMsg (text : String)
deriving DecidableEq, Repr

/-- `series.iloc[-1]`: the last element, raising on an empty series
(src/app.py lines 40-41). -/
def lastOf {α : Type} (xs : List α) : Except PipelineError α :=
  match xs.getLast? with
  | some v => .ok v
  | none => .error .emptySeries

/-- The outputs of a fully successful render (src/app.py lines 43-83):
price metric, volatility metric, regime badge, dual-axis chart, and the
last-30-rows table. -/
def renderSuccess (prices : PriceSeries) (currentPrice currentVolPct threshold : ℚ) :
    List Output :=
  [ .metricPrice currentPrice,
    .metricVol currentVolPct,
    .badge (decide (currentVolPct > threshold)),
    .chart threshold,
    .rawData (prices.drop (prices.length - 30)) ]

/-- The body of the try block (src/app.py lines 30-83): fetch, compute the
volatility series with the external engine, take the latest price and
volatility, and produce the outputs.  Any stage may fail.  The analytics
collaborator is passed in as `volEngine`. -/
def pipelineRun (volEngine : PriceSeries → List (Nat × ℚ))
    (fetchResult : Except PipelineError PriceSeries) (threshold : ℚ) :
    Except PipelineError (List Output) :=
  match fetchResult with
  | .error e => .error e
  | .ok prices =>
      match lastOf prices with
      | .error e => .error e
      | .ok currentPrice =>
          match lastOf (volEngine prices) with
          | .error e => .error e
          | .ok currentVol =>
              .ok (renderSuccess prices currentPrice.2 (currentVol.2 * 100) threshold)

/-- The whole try/except boundary (src/app.py lines 30-86): on any failure
the page shows only the generic error message naming the ticker. -/
def runApp (volEngine : PriceSeries → List (Nat × ℚ))
    (fetchResult : Except PipelineError PriceSeries)
    (ticker : String) (threshold : ℚ) : List Output :=
  match pipelineRun volEngine fetchResult threshold with
  | .ok outs => outs
  | .error _ => [.errorMsg (errorMessage ticker)]

/-- Is an output the error message? -/
def isErrorOutput : Output → Bool
  | .errorMsg _ => true
  | _ => false

/-! ## Sidebar widgets (src/app.py lines 19-21) -/

/-- A sidebar input widget. -/
inductive Widget where
  | textInput (label : String) (defaultValue : String)
  | selectbox (label : String) (options : List String) (defaultIndex : Nat)
  | slider (label : String) (minValue maxValue defaultValue : Int)
deriving DecidableEq, Repr

/-- The three sidebar inputs, in page order (src/app.py lines 19-21). -/
def sidebarWidgets : List Widget :=
  [ .textInput "Ticker Symbol" "SPY",
    .selectbox "Lookback Period" ["1y", "2y", "5y", "10y"] 1,
    .slider "Volatility Alert Threshold (%)" 10 50 20 ]

end VolApp

namespace VolApp

/-- **C2.** The Regime Classifier returns HIGH_VOLATILITY exactly when the
latest volatility percentage strictly exceeds the threshold and STABLE
otherwise; in particular `classify 20.0 20.0 = STABLE`,
`classify 20.01 20.0 = HIGH_VOLATILITY` and `classify 0.0 10.0 = STABLE`. -/
theorem classify_strict_threshold (v t : ℚ) :
    (classify v t = RegimeState.HIGH_VOLATILITY ↔ t < v) ∧
    (classify v t = RegimeState.STABLE ↔ v ≤ t) ∧
    classify 20 20 = RegimeState.STABLE ∧
    classify (2001 / 100) 20 = RegimeState.HIGH_VOLATILITY ∧
    classify 0 10 = RegimeState.STABLE := by
  refine ⟨?_, ?_, by norm_num [classify], by norm_num [classify],
    by norm_num [classify]⟩ <;>
  by_cases h : t < v <;>
    simp [classify, gt_iff_lt, h, le_of_not_lt, not_le_of_lt]

/-! ## Volatility Engine claims -/

/-- A sample price series of length 22 used as a witness input. -/
def samplePrices22 : PriceSeries := (List.range 22).map fun i => (i, (i : ℚ) + 1)

/-- A sample price series of length 5 used as a witness input. -/
def samplePrices5 : PriceSeries := (List.range 5).map fun i => (i, (i : ℚ) + 1)

/-- **C1.** With the fixed window size 22 (src/app.py line 37), the volatility
series has length `|p| - 21` when `|p| ≥ 22` and is empty when `|p| < 22`. -/
theorem rollingVolatility_length (p : PriceSeries) :
    (22 ≤ p.length → (rollingVolatility p 22).length = p.length - 21) ∧
    (p.length < 22 → rollingVolatility p 22 = []) := by
  constructor
  · intro h
    have hcond : ¬(22 = 0 ∨ p.length < 22) := by omega
    unfold rollingVolatility
    rw [if_neg hcond]
    simp [List.enum_eq_enumFrom]
  · intro h
    unfold rollingVolatility
    rw [if_pos (Or.inr h)]

/-- Witness for C1: a 22-point series yields exactly 1 volatility point and a
5-point series yields the empty series. -/
theorem rollingVolatility_length_witness :
    (22 ≤ samplePrices22.length ∧ (rollingVolatility samplePrices22 22).length = 1) ∧
    (samplePrices5.length < 22 ∧ rollingVolatility samplePrices5 22 = []) := by
  refine ⟨⟨by decide, ?_⟩, by decide, (rollingVolatility_length samplePrices5).2 (by decide)⟩
  have h := (rollingVolatility_length samplePrices22).1 (by decide)
  simpa using h

/-- Taking the first components of an enumerated list's entries recovers the
first components of the original list. -/
theorem enum_map_snd_fst {α : Type} (l : List (Nat × α)) :
    l.enum.map (fun kp => kp.2.1) = l.map Prod.fst := by
  have h : (fun kp : Nat × (Nat × α) => kp.2.1) = Prod.fst ∘ Prod.snd := rfl
  rw [h, ← List.map_map, List.enum_eq_enumFrom, List.enumFrom_map_snd]

/-- The dates of the volatility series are the dates of the price series with
the first `windowSize - 1` dropped. -/
theorem rollingVolatility_dates (p : PriceSeries) (w : Nat)
    (h : ¬(w = 0 ∨ p.length < w)) :
    (rollingVolatility p w).map Prod.fst = (p.map Prod.fst).drop (w - 1) := by
  unfold rollingVolatility
  rw [if_neg h, List.map_map]
  have hfun : (Prod.fst ∘ fun kp : Nat × (Nat × ℚ) =>
      ((kp.2.1 : Nat), volValue (((simpleReturns (p.map Prod.snd)).take
        (kp.1 + (w - 1))).drop (kp.1 + (w - 1) - w)))) =
      fun kp : Nat × (Nat × ℚ) => kp.2.1 := rfl
  rw [hfun, enum_map_snd_fst, List.map_drop]

/-- **C5.** Every date appearing in the volatility series also appears in the
price series it was computed from. -/
theorem rollingVolatility_dates_subset (p : PriceSeries) (d : Nat)
    (hd : d ∈ (rollingVolatility p 22).map Prod.fst) :
    d ∈ p.map Prod.fst := by
  by_cases h : (22 : Nat) = 0 ∨ p.length < 22
  · unfold rollingVolatility at hd
    rw [if_pos h] at hd
    simp at hd
  · rw [rollingVolatility_dates p 22 h] at hd
    exact List.Sublist.mem hd (List.drop_sublist 21 (p.map Prod.fst))

/-- Witness for C5: date 21 occurs in the volatility series of the sample
22-point series and in the price series itself. -/
theorem rollingVolatility_dates_subset_witness :
    (21 ∈ (rollingVolatility samplePrices22 22).map Prod.fst) ∧
    21 ∈ samplePrices22.map Prod.fst := by
  have hmem : 21 ∈ (rollingVolatility samplePrices22 22).map Prod.fst := by
    rw [rollingVolatility_dates samplePrices22 22 (by decide)]
    decide
  exact ⟨hmem, rollingVolatility_dates_subset samplePrices22 21 hmem⟩

/-- Every element of the volatility series has a non-negative value. -/
theorem rollingVolatility_mem_nonneg (p : PriceSeries) (w : Nat)
    (x : Nat × ℝ) (hx : x ∈ rollingVolatility p w) : 0 ≤ x.2 := by
  unfold rollingVolatility at hx
  by_cases h : w = 0 ∨ p.length < w
  · rw [if_pos h] at hx
    simp at hx
  · rw [if_neg h] at hx
    simp only [List.mem_map] at hx
    obtain ⟨kp, _, rfl⟩ := hx
    exact Real.sqrt_nonneg _

/-- **C6.** Every value in the volatility series produced by the Volatility
Engine is greater than or equal to 0 (indices out of range read the default
`(0, 0)`, whose value is 0). -/
theorem rollingVolatility_value_nonneg (p : PriceSeries) (i : Nat) :
    0 ≤ ((rollingVolatility p 22).getD i (0, 0)).2 := by
  rw [List.getD_eq_getElem?_getD]
  cases hx : (rollingVolatility p 22)[i]? with
  | none => simp [hx]
  | some x =>
      simp only [hx, Option.getD_some]
      exact rollingVolatility_mem_nonneg p 22 x (List.getElem?_mem hx)

/-! ## Presentation Layer claims -/

/-- A successful pipeline run is a full render: the fetched prices exist, both
latest values exist, and the outputs are exactly `renderSuccess`. -/
theorem pipelineRun_ok_shape (ve : PriceSeries → List (Nat × ℚ))
    (f : Except PipelineError PriceSeries) (θ : ℚ) (os : List Output)
    (h : pipelineRun ve f θ = .ok os) :
    ∃ prices cp cv, f = .ok prices ∧ prices.getLast? = some cp ∧
      (ve prices).getLast? = some cv ∧
      os = renderSuccess prices cp.2 (cv.2 * 100) θ := by
  cases f with
  | error e => simp [pipelineRun] at h
  | ok prices =>
      cases hcp : prices.getLast? with
      | none => simp [pipelineRun, lastOf, hcp] at h
      | some cp =>
          cases hcv : (ve prices).getLast? with
          | none => simp [pipelineRun, lastOf, hcp, hcv] at h
          | some cv =>
              refine ⟨prices, cp, cv, rfl, hcp, hcv, ?_⟩
              simp [pipelineRun, lastOf, hcp, hcv] at h
              exact h.symm

/-- **C3.** Any pipeline failure is caught at the presentation layer and
collapses to the single generic error message naming the ticker; a success
renders all five outputs and none of them is an error message. -/
theorem errorBoundary_single_message (ve : PriceSeries → List (Nat × ℚ))
    (f : Except PipelineError PriceSeries) (t : String) (θ : ℚ) :
    (∀ e, pipelineRun ve f θ = .error e →
      runApp ve f t θ = [Output.errorMsg (errorMessage t)]) ∧
    (∀ os, pipelineRun ve f θ = .ok os →
      runApp ve f t θ = os ∧ os.length = 5 ∧ os.countP isErrorOutput = 0) := by
  constructor
  · intro e he
    simp [runApp, he]
  · intro os hos
    obtain ⟨prices, cp, cv, _, _, _, hshape⟩ := pipelineRun_ok_shape ve f θ os hos
    subst hshape
    exact ⟨by simp [runApp, hos], by simp [renderSuccess],
      by simp [renderSuccess, isErrorOutput]⟩

/-- Witness for C3: a failing fetch renders only the error message; a
one-point series with a stub engine renders the five outputs. -/
theorem errorBoundary_single_message_witness :
    runApp (fun _ => [(0, 1)]) (.error .dataUnavailable) "ZZZINVALID" 20 =
      [Output.errorMsg (errorMessage "ZZZINVALID")] ∧
    (runApp (fun _ => [(0, 1)]) (.ok [(0, 5)]) "SPY" 20 =
        renderSuccess [(0, 5)] 5 (1 * 100) 20 ∧
      (renderSuccess [(0, 5)] 5 (1 * 100) 20).length = 5 ∧
      (renderSuccess [(0, 5)] 5 (1 * 100) 20).countP isErrorOutput = 0) :=
  ⟨(errorBoundary_single_message (fun _ => [(0, 1)])
      (.error .dataUnavailable) "ZZZINVALID" 20).1 PipelineError.dataUnavailable rfl,
   (errorBoundary_single_message (fun _ => [(0, 1)])
      (.ok [(0, 5)]) "SPY" 20).2 (renderSuccess [(0, 5)] 5 (1 * 100) 20) rfl⟩

/-- **C4.** Calling the cached Data Fetcher a second time with identical
arguments returns the same series content and leaves the state (in
particular the network-call count) unchanged. -/
theorem cachedGetData_second_call (download : String → String → PriceSeries)
    (t p : String) (s : FetchState) :
    cachedGetData download t p (cachedGetData download t p s).2 =
      ((cachedGetData download t p s).1, (cachedGetData download t p s).2) ∧
    (cachedGetData download t p (cachedGetData download t p s).2).2.networkCalls =
      (cachedGetData download t p s).2.networkCalls := by
  have hmain : cachedGetData download t p (cachedGetData download t p s).2 =
      ((cachedGetData download t p s).1, (cachedGetData download t p s).2) := by
    cases h : s.cache.find? (fun e => e.1 == (t, p)) with
    | some e =>
        have h1 : cachedGetData download t p s = (e.2, s) := by
          simp [cachedGetData, h]
        rw [h1]
        simp [cachedGetData, h]
    | none =>
        have h1 : cachedGetData download t p s =
            (download t p,
             ⟨((t, p), download t p) :: s.cache, s.networkCalls + 1⟩) := by
          simp [cachedGetData, h]
        rw [h1]
        simp [cachedGetData]
  exact ⟨hmain, by rw [hmain]⟩

/-- **C7.** The sidebar exposes exactly three inputs: a free-text ticker
defaulting to "SPY", a period select over {1y, 2y, 5y, 10y} defaulting to
"2y" (index 1), and an integer slider from 10 to 50 defaulting to 20. -/
theorem sidebarWidgets_spec :
    sidebarWidgets.length = 3 ∧
    sidebarWidgets.get? 0 = some (Widget.textInput "Ticker Symbol" "SPY") ∧
    sidebarWidgets.get? 1 =
      some (Widget.selectbox "Lookback Period" ["1y", "2y", "5y", "10y"] 1) ∧
    (["1y", "2y", "5y", "10y"] : List String).get? 1 = some "2y" ∧
    sidebarWidgets.get? 2 =
      some (Widget.slider "Volatility Alert Threshold (%)" 10 50 20) := by
  refine ⟨rfl, rfl, rfl, rfl, rfl⟩

/-- **C8.** On a successful render the volatility metric and the regime badge
both derive from the last volatility value times 100: the HIGH badge appears
exactly when that displayed percentage exceeds the threshold. -/
theorem badge_matches_metric (ve : PriceSeries → List (Nat × ℚ))
    (prices : PriceSeries) (t : String) (θ : ℚ) (cp cv : Nat × ℚ)
    (hp : prices.getLast? = some cp) (hv : (ve prices).getLast? = some cv) :
    runApp ve (.ok prices) t θ = renderSuccess prices cp.2 (cv.2 * 100) θ ∧
    Output.metricVol (cv.2 * 100) ∈ runApp ve (.ok prices) t θ ∧
    (Output.badge true ∈ runApp ve (.ok prices) t θ ↔ θ < cv.2 * 100) := by
  have hrun : runApp ve (.ok prices) t θ =
      renderSuccess prices cp.2 (cv.2 * 100) θ := by
    simp [runApp, pipelineRun, lastOf, hp, hv]
  refine ⟨hrun, ?_, ?_⟩
  · rw [hrun]
    simp [renderSuccess]
  · rw [hrun]
    simp [renderSuccess, gt_iff_lt, eq_comm]

/-- Witness for C8: a one-point price series with a stub engine value 1 and
threshold 20 shows the metric 100 and the HIGH badge. -/
theorem badge_matches_metric_witness :
    runApp (fun _ => [(0, 1)]) (.ok [(0, 5)]) "SPY" 20 =
      renderSuccess [(0, 5)] 5 (1 * 100) 20 ∧
    Output.metricVol (1 * 100) ∈ runApp (fun _ => [(0, 1)]) (.ok [(0, 5)]) "SPY" 20 ∧
    (Output.badge true ∈ runApp (fun _ => [(0, 1)]) (.ok [(0, 5)]) "SPY" 20 ↔
      (20 : ℚ) < 1 * 100) :=
  badge_matches_metric (fun _ => [(0, 1)]) [(0, 5)] "SPY" 20 (0, 5) (0, 1) rfl rfl

/-- **C9.** `get_data` returns only the "Adj Close" column of the downloaded
frame: whenever that column is present, the result is its values zipped with
the date index, regardless of every other column in the frame. -/
theorem get_data_returns_adjClose (download : String → String → DataFrame)
    (t p : String) (vs : List ℚ) (pre post : List (String × List ℚ))
    (hpre : ∀ c ∈ pre, (c.1 == adjClose) = false)
    (hcols : (download t p).columns = pre ++ (adjClose, vs) :: post) :
    get_data download t p = .ok ((download t p).index.zip vs) := by
  have hfind : ((download t p).columns.find? fun c => c.1 == adjClose) =
      some (adjClose, vs) := by
    rw [hcols, List.find?_append]
    have hnone : (pre.find? fun c => c.1 == adjClose) = none :=
      List.find?_eq_none.mpr (fun x hx => by simp [hpre x hx])
    rw [hnone, List.find?_cons_of_pos _ (by simp)]
    rfl
  unfold get_data
  rw [hfind]

/-- Witness for C9: a three-column frame yields only the Adj Close values. -/
theorem get_data_returns_adjClose_witness :
    (∀ c ∈ [("Open", [(7 : ℚ), 8])], (c.1 == adjClose) = false) ∧
    get_data (fun _ _ => ⟨[0, 1], [("Open", [7, 8]), (adjClose, [5, 6]), ("Close", [9, 10])]⟩)
        "SPY" "2y" = .ok ([0, 1].zip [5, 6]) :=
  ⟨by decide,
   get_data_returns_adjClose
     (fun _ _ => ⟨[0, 1], [("Open", [7, 8]), (adjClose, [5, 6]), ("Close", [9, 10])]⟩)
     "SPY" "2y" [5, 6] [("Open", [7, 8])] [("Close", [9, 10])] (by decide) rfl⟩

/-- The ticker appears verbatim between the quote marks of the failure
message. -/
theorem errorMessage_data (t : String) :
    (errorMessage t).data =
      ("Error: Could not fetch data for ticker " ++ singleQuote).data ++
        t.data ++ (singleQuote ++ ". Please check the symbol.").data := by
  simp [errorMessage, String.data_append, List.append_assoc]

/-- Distinct ticker strings produce distinct failure messages. -/
theorem errorMessage_injective {a b : String}
    (h : errorMessage a = errorMessage b) : a = b := by
  have hd := congrArg String.data h
  rw [errorMessage_data, errorMessage_data] at hd
  rw [List.append_assoc, List.append_assoc, List.append_right_inj,
    List.append_left_inj] at hd
  exact String.ext hd

/-- **C10.** The ticker is used verbatim: it is embedded untouched in the
failure message, and distinct tickers (for example differing only in case or
whitespace) form distinct cache keys, so two such fetches both hit the
network and occupy two cache entries, and their failure messages differ. -/
theorem ticker_used_verbatim (download : String → String → PriceSeries)
    (t1 t2 p : String) (h : t1 ≠ t2) :
    (cachedGetData download t2 p (cachedGetData download t1 p ⟨[], 0⟩).2).2.networkCalls = 2 ∧
    (cachedGetData download t2 p (cachedGetData download t1 p ⟨[], 0⟩).2).2.cache.length = 2 ∧
    errorMessage t1 ≠ errorMessage t2 := by
  have h1 : cachedGetData download t1 p ⟨[], 0⟩ =
      (download t1 p, ⟨[((t1, p), download t1 p)], 1⟩) := by
    simp [cachedGetData]
  have hne : ((((t1, p), download t1 p)).1 == (t2, p)) = false := by
    simp [h]
  have h2 : cachedGetData download t2 p ⟨[((t1, p), download t1 p)], 1⟩ =
      (download t2 p,
       ⟨[((t2, p), download t2 p), ((t1, p), download t1 p)], 2⟩) := by
    simp [cachedGetData, hne]
  rw [h1, h2]
  exact ⟨rfl, rfl, fun hmsg => h (errorMessage_injective hmsg)⟩

/-- Witness for C10: "SPY" versus "spy " (case and whitespace variant). -/
theorem ticker_used_verbatim_witness :
    (cachedGetData (fun _ _ => []) "spy " "2y"
        (cachedGetData (fun _ _ => []) "SPY" "2y" ⟨[], 0⟩).2).2.networkCalls = 2 ∧
    (cachedGetData (fun _ _ => []) "spy " "2y"
        (cachedGetData (fun _ _ => []) "SPY" "2y" ⟨[], 0⟩).2).2.cache.length = 2 ∧
    errorMessage "SPY" ≠ errorMessage "spy " :=
  ticker_used_verbatim (fun _ _ => []) "SPY" "spy " "2y" (by decide)

end VolApp
